import Mathlib

/-!
# Verification of the charity-donation blockchain ledger

A shallow embedding of the `BlockchainService` class (the toy hash-chained
ledger of the repository) together with the donation-recording route that
drives it, and proofs of the specification's testable properties.

Conventions of the embedding:
* JavaScript strings are `String` (all strings involved are ASCII, so
  `charCodeAt` is `Char.toNat` on `String.toList`).
* JavaScript numbers that the code only ever uses as integers (amounts,
  indices, nonces, millisecond clock readings) are `Int` / `Nat`; their
  JS string rendering is `toString`.
* Each `new Date()` reading is an explicit input parameter: the clock is
  the environment's choice, so theorems quantify over the timestamp
  strings and millisecond values.
* Mutation of `this` is explicit state passing on `BlockchainService`.
-/

namespace Charity

/-- A pending/recorded donation transaction, exactly the object literal
built in `addDonationTransaction` (fields in construction order). -/
structure Transaction where
  fromAddress : String
  toAddress : String
  amount : Int
  message : String
  timestamp : String
  transactionId : String
deriving DecidableEq, Repr

/-- A block of the chain, exactly the object literal built in
`createGenesisBlock` / `createNewBlock`. -/
structure Block where
  index : Nat
  timestamp : String
  transactions : List Transaction
  previousHash : String
  hash : String
  nonce : Nat
deriving DecidableEq, Repr

/-- The mutable state of the singleton `BlockchainService`: the chain and
the pending-transaction buffer. -/
structure BlockchainService where
  chain : List Block
  pendingTransactions : List Transaction
deriving DecidableEq, Repr

/-- JavaScript `ToInt32`: reduce an integer to the signed 32-bit range.
`x & x` and `<<` in the source both coerce through this. -/
def toInt32 (n : Int) : Int :=
  let m := n % 4294967296
  if m < 2147483648 then m else m - 4294967296

/-- One iteration of the rolling-hash loop:
`hash = ((hash << 5) - hash) + char; hash = hash & hash`.
`hash << 5` wraps to int32 first; the sum is exact in doubles; the final
`& hash` wraps to int32 again. -/
def hashStep (h : Int) (c : Nat) : Int :=
  toInt32 (toInt32 (h * 32) - h + c)

/-- JS `Math.abs(h).toString(16)`: lowercase hexadecimal of the absolute
value. -/
def toHex (h : Int) : String :=
  String.mk (Nat.toDigits 16 h.natAbs)

/-- The service's `sha256` (in reality a 32-bit additive rolling hash):
returns `"0"` on the empty string, otherwise folds `hashStep` over the
char codes and renders `Math.abs(hash).toString(16)`. -/
def sha256 (data : String) : String :=
  if data.length == 0 then "0"
  else toHex (data.toList.foldl (fun h c => hashStep h c.toNat) 0)

/-- The `JSON.stringify` rendering of one transaction object: keys in insertion order,
plain ASCII string values (no escaping is needed for the identifiers,
messages and timestamps involved), `amount` rendered as a JS number. -/
def stringifyTransaction (t : Transaction) : String :=
  "\x7b\"fromAddress\":\"" ++ t.fromAddress ++
  "\",\"toAddress\":\"" ++ t.toAddress ++
  "\",\"amount\":" ++ toString t.amount ++
  ",\"message\":\"" ++ t.message ++
  "\",\"timestamp\":\"" ++ t.timestamp ++
  "\",\"transactionId\":\"" ++ t.transactionId ++ "\"\x7d"

/-- The `JSON.stringify` rendering of the transactions array. -/
def stringifyTransactions (ts : List Transaction) : String :=
  "[" ++ String.intercalate "," (ts.map stringifyTransaction) ++ "]"

/-- Source `calculateHash(index, previousHash, transactions, timestamp, nonce)`:
string-concatenates the fields (numbers coerced to strings, transactions
via `JSON.stringify`) and hashes. -/
def calculateHash (index : Nat) (previousHash : String)
    (transactions : List Transaction) (timestamp : String) (nonce : Nat) : String :=
  sha256 (toString index ++ previousHash ++ stringifyTransactions transactions
    ++ timestamp ++ toString nonce)

/-- Source `createGenesisBlock`: the source reads the clock twice (`timestamp:`
field and inside `calculateHash`), hence two timestamp parameters. -/
def createGenesisBlock (tsField tsHash : String) : Block :=
  { index := 0
    timestamp := tsField
    transactions := []
    previousHash := "0"
    hash := calculateHash 0 "0" [] tsHash 0
    nonce := 0 }

/-- The constructor: empty chain and pending buffer, then
`initializeBlockchain` pushes the genesis block (the chain is empty, so
the branch is always taken; no `await` precedes it). -/
def newBlockchainService (tsField tsHash : String) : BlockchainService :=
  { chain := [createGenesisBlock tsField tsHash]
    pendingTransactions := [] }

/-- Source `getLatestBlock`: `chain[chain.length - 1]`, `undefined` on an empty
chain. -/
def getLatestBlock (s : BlockchainService) : Option Block :=
  s.chain.getLast?

/-- Source `generateTransactionId(from, to, amount)`: hashes
`from + to + amount + new Date().getTime()`; the millisecond reading is
the explicit `timeMs` input. -/
def generateTransactionId (fromAddr toAddr : String) (amount : Int)
    (timeMs : Nat) : String :=
  sha256 (fromAddr ++ toAddr ++ toString amount ++ toString timeMs)

/-- Source `addDonationTransaction(donorId, charityId, amount, message)`:
builds the transaction (two clock reads: ISO timestamp and `getTime()`
inside the id), pushes it on `pendingTransactions`, returns it. There is
no validation of `amount`. -/
def addDonationTransaction (donorId charityId : String) (amount : Int)
    (message : String) (tsNow : String) (timeMs : Nat)
    (s : BlockchainService) : Transaction × BlockchainService :=
  let transaction : Transaction :=
    { fromAddress := donorId
      toAddress := charityId
      amount := amount
      message := message
      timestamp := tsNow
      transactionId := generateTransactionId donorId charityId amount timeMs }
  (transaction,
   { s with pendingTransactions := s.pendingTransactions ++ [transaction] })

/-- Source `createNewBlock(transactions)`: reads the latest block (a crash, i.e.
`none`, on an empty chain), links `previousHash` to its hash, computes
the new hash over the canonical fields with nonce 0. -/
def createNewBlock (transactions : List Transaction) (tsNow : String)
    (s : BlockchainService) : Option Block :=
  match getLatestBlock s with
  | none => none
  | some previousBlock =>
      let newIndex := previousBlock.index + 1
      let previousHash := previousBlock.hash
      some
        { index := newIndex
          timestamp := tsNow
          transactions := transactions
          previousHash := previousHash
          hash := calculateHash newIndex previousHash transactions tsNow 0
          nonce := 0 }

/-- Source `minePendingTransactions()`: seals the whole pending buffer into a
new block, appends it to the chain, clears the buffer, returns the
block. -/
def minePendingTransactions (tsNow : String) (s : BlockchainService) :
    Option (Block × BlockchainService) :=
  match createNewBlock s.pendingTransactions tsNow s with
  | none => none
  | some block =>
      some (block, { chain := s.chain ++ [block], pendingTransactions := [] })

/-- Source `getBalanceOfAddress(address)`: scan every block's transactions,
subtract on `fromAddress` match, add on `toAddress` match
(`parseFloat` is the identity on the numeric amounts). -/
def getBalanceOfAddress (address : String) (s : BlockchainService) : Int :=
  s.chain.foldl
    (fun balance block =>
      block.transactions.foldl
        (fun balance transaction =>
          let balance :=
            if transaction.fromAddress == address then balance - transaction.amount
            else balance
          if transaction.toAddress == address then balance + transaction.amount
          else balance)
        balance)
    0

/-- The per-index body of the `isChainValid` loop: recompute the current
block's hash from its stored fields and compare, then check the link to
the previous block's hash. -/
def checkBlock (previousBlock currentBlock : Block) : Bool :=
  (currentBlock.hash ==
      calculateHash currentBlock.index currentBlock.previousHash
        currentBlock.transactions currentBlock.timestamp currentBlock.nonce)
    && (currentBlock.previousHash == previousBlock.hash)

/-- Source `isChainValid()`: the loop `for (i = 1; i < chain.length; i++)`
checking each adjacent pair, `false` on the first mismatch, `true` when
every pair passes (vacuously `true` for chains of length 0 or 1). -/
def isChainValid (chain : List Block) : Bool :=
  match chain with
  | [] => true
  | [_] => true
  | a :: b :: rest => checkBlock a b && isChainValid (b :: rest)

/-! ## Concrete evaluation of the hash on the demonstration scenario

The scenario: a fresh ledger (constructed at `2024-01-01T00:00:00.000Z`),
one donation of amount 10721006 from "donorA" to "charityB" added at
`2024-01-01T00:00:01.000Z` (epoch 1704067201000 ms), mined at
`2024-01-01T00:00:02.000Z`.  The rolling-hash evaluations are split into
30-character pieces so that each piece reduces within the elaborator's
recursion budget and are recombined with `List.foldl_append`. -/

set_option maxRecDepth 3000 in
theorem fold_genesis :
    List.foldl (fun h c => hashStep h c.toNat) 0 ("00[]2024-01-01T00:00:00.000Z0" : String).toList = (82876810 : Int) := rfl

set_option maxRecDepth 20000 in
theorem sha_genesis : sha256 "00[]2024-01-01T00:00:00.000Z0" = "4f0998a" := by
  simp only [sha256, fold_genesis]
  rfl

set_option maxRecDepth 4000 in
theorem fold_txid :
    List.foldl (fun h c => hashStep h c.toNat) 0 ("donorAcharityB107210061704067201000" : String).toList = (-1280006144 : Int) := by
  have hsplit : ("donorAcharityB107210061704067201000" : String).toList
      = ("donorAcharityB1072100617040672" : String).toList ++ (("01000" : String).toList) := rfl
  have e0 : List.foldl (fun h c => hashStep h c.toNat) (0 : Int) ("donorAcharityB1072100617040672" : String).toList = (667360751 : Int) := rfl
  have e1 : List.foldl (fun h c => hashStep h c.toNat) (667360751 : Int) ("01000" : String).toList = (-1280006144 : Int) := rfl
  rw [hsplit, List.foldl_append, e0]
  exact e1

set_option maxRecDepth 20000 in
theorem sha_txid : sha256 "donorAcharityB107210061704067201000" = "4c4b5800" := by
  simp only [sha256, fold_txid]
  rfl

set_option maxRecDepth 4000 in
theorem fold_block_10721006 :
    List.foldl (fun h c => hashStep h c.toNat) 0 ("14f0998a[\x7b\"fromAddress\":\"donorA\",\"toAddress\":\"charityB\",\"amount\":10721006,\"message\":\"\",\"timestamp\":\"2024-01-01T00:00:01.000Z\",\"transactionId\":\"4c4b5800\"\x7d]2024-01-01T00:00:02.000Z0" : String).toList = (765008378 : Int) := by
  have hsplit : ("14f0998a[\x7b\"fromAddress\":\"donorA\",\"toAddress\":\"charityB\",\"amount\":10721006,\"message\":\"\",\"timestamp\":\"2024-01-01T00:00:01.000Z\",\"transactionId\":\"4c4b5800\"\x7d]2024-01-01T00:00:02.000Z0" : String).toList
      = ("14f0998a[\x7b\"fromAddress\":\"donor" : String).toList ++ (("A\",\"toAddress\":\"charityB\",\"amo" : String).toList ++ (("unt\":10721006,\"message\":\"\",\"ti" : String).toList ++ (("mestamp\":\"2024-01-01T00:00:01." : String).toList ++ (("000Z\",\"transactionId\":\"4c4b580" : String).toList ++ (("0\"\x7d]2024-01-01T00:00:02.000Z0" : String).toList))))) := rfl
  have e0 : List.foldl (fun h c => hashStep h c.toNat) (0 : Int) ("14f0998a[\x7b\"fromAddress\":\"donor" : String).toList = (814811674 : Int) := rfl
  have e1 : List.foldl (fun h c => hashStep h c.toNat) (814811674 : Int) ("A\",\"toAddress\":\"charityB\",\"amo" : String).toList = (1782018135 : Int) := rfl
  have e2 : List.foldl (fun h c => hashStep h c.toNat) (1782018135 : Int) ("unt\":10721006,\"message\":\"\",\"ti" : String).toList = (-1112334855 : Int) := rfl
  have e3 : List.foldl (fun h c => hashStep h c.toNat) (-1112334855 : Int) ("mestamp\":\"2024-01-01T00:00:01." : String).toList = (-1612544655 : Int) := rfl
  have e4 : List.foldl (fun h c => hashStep h c.toNat) (-1612544655 : Int) ("000Z\",\"transactionId\":\"4c4b580" : String).toList = (-351062078 : Int) := rfl
  have e5 : List.foldl (fun h c => hashStep h c.toNat) (-351062078 : Int) ("0\"\x7d]2024-01-01T00:00:02.000Z0" : String).toList = (765008378 : Int) := rfl
  rw [hsplit, List.foldl_append, e0, List.foldl_append, e1, List.foldl_append, e2, List.foldl_append, e3, List.foldl_append, e4]
  exact e5

set_option maxRecDepth 20000 in
theorem sha_block_10721006 : sha256 "14f0998a[\x7b\"fromAddress\":\"donorA\",\"toAddress\":\"charityB\",\"amount\":10721006,\"message\":\"\",\"timestamp\":\"2024-01-01T00:00:01.000Z\",\"transactionId\":\"4c4b5800\"\x7d]2024-01-01T00:00:02.000Z0" = "2d9919fa" := by
  simp only [sha256, fold_block_10721006]
  rfl

set_option maxRecDepth 4000 in
theorem fold_block_81000710 :
    List.foldl (fun h c => hashStep h c.toNat) 0 ("14f0998a[\x7b\"fromAddress\":\"donorA\",\"toAddress\":\"charityB\",\"amount\":81000710,\"message\":\"\",\"timestamp\":\"2024-01-01T00:00:01.000Z\",\"transactionId\":\"4c4b5800\"\x7d]2024-01-01T00:00:02.000Z0" : String).toList = (765008378 : Int) := by
  have hsplit : ("14f0998a[\x7b\"fromAddress\":\"donorA\",\"toAddress\":\"charityB\",\"amount\":81000710,\"message\":\"\",\"timestamp\":\"2024-01-01T00:00:01.000Z\",\"transactionId\":\"4c4b5800\"\x7d]2024-01-01T00:00:02.000Z0" : String).toList
      = ("14f0998a[\x7b\"fromAddress\":\"donor" : String).toList ++ (("A\",\"toAddress\":\"charityB\",\"amo" : String).toList ++ (("unt\":81000710,\"message\":\"\",\"ti" : String).toList ++ (("mestamp\":\"2024-01-01T00:00:01." : String).toList ++ (("000Z\",\"transactionId\":\"4c4b580" : String).toList ++ (("0\"\x7d]2024-01-01T00:00:02.000Z0" : String).toList))))) := rfl
  have e0 : List.foldl (fun h c => hashStep h c.toNat) (0 : Int) ("14f0998a[\x7b\"fromAddress\":\"donor" : String).toList = (814811674 : Int) := rfl
  have e1 : List.foldl (fun h c => hashStep h c.toNat) (814811674 : Int) ("A\",\"toAddress\":\"charityB\",\"amo" : String).toList = (1782018135 : Int) := rfl
  have e2 : List.foldl (fun h c => hashStep h c.toNat) (1782018135 : Int) ("unt\":81000710,\"message\":\"\",\"ti" : String).toList = (-1112334855 : Int) := rfl
  have e3 : List.foldl (fun h c => hashStep h c.toNat) (-1112334855 : Int) ("mestamp\":\"2024-01-01T00:00:01." : String).toList = (-1612544655 : Int) := rfl
  have e4 : List.foldl (fun h c => hashStep h c.toNat) (-1612544655 : Int) ("000Z\",\"transactionId\":\"4c4b580" : String).toList = (-351062078 : Int) := rfl
  have e5 : List.foldl (fun h c => hashStep h c.toNat) (-351062078 : Int) ("0\"\x7d]2024-01-01T00:00:02.000Z0" : String).toList = (765008378 : Int) := rfl
  rw [hsplit, List.foldl_append, e0, List.foldl_append, e1, List.foldl_append, e2, List.foldl_append, e3, List.foldl_append, e4]
  exact e5

set_option maxRecDepth 20000 in
theorem sha_block_81000710 : sha256 "14f0998a[\x7b\"fromAddress\":\"donorA\",\"toAddress\":\"charityB\",\"amount\":81000710,\"message\":\"\",\"timestamp\":\"2024-01-01T00:00:01.000Z\",\"transactionId\":\"4c4b5800\"\x7d]2024-01-01T00:00:02.000Z0" = "2d9919fa" := by
  simp only [sha256, fold_block_81000710]
  rfl

set_option maxRecDepth 4000 in
theorem fold_block_10721007 :
    List.foldl (fun h c => hashStep h c.toNat) 0 ("14f0998a[\x7b\"fromAddress\":\"donorA\",\"toAddress\":\"charityB\",\"amount\":10721007,\"message\":\"\",\"timestamp\":\"2024-01-01T00:00:01.000Z\",\"transactionId\":\"4c4b5800\"\x7d]2024-01-01T00:00:02.000Z0" : String).toList = (1841561787 : Int) := by
  have hsplit : ("14f0998a[\x7b\"fromAddress\":\"donorA\",\"toAddress\":\"charityB\",\"amount\":10721007,\"message\":\"\",\"timestamp\":\"2024-01-01T00:00:01.000Z\",\"transactionId\":\"4c4b5800\"\x7d]2024-01-01T00:00:02.000Z0" : String).toList
      = ("14f0998a[\x7b\"fromAddress\":\"donor" : String).toList ++ (("A\",\"toAddress\":\"charityB\",\"amo" : String).toList ++ (("unt\":10721007,\"message\":\"\",\"ti" : String).toList ++ (("mestamp\":\"2024-01-01T00:00:01." : String).toList ++ (("000Z\",\"transactionId\":\"4c4b580" : String).toList ++ (("0\"\x7d]2024-01-01T00:00:02.000Z0" : String).toList))))) := rfl
  have e0 : List.foldl (fun h c => hashStep h c.toNat) (0 : Int) ("14f0998a[\x7b\"fromAddress\":\"donor" : String).toList = (814811674 : Int) := rfl
  have e1 : List.foldl (fun h c => hashStep h c.toNat) (814811674 : Int) ("A\",\"toAddress\":\"charityB\",\"amo" : String).toList = (1782018135 : Int) := rfl
  have e2 : List.foldl (fun h c => hashStep h c.toNat) (1782018135 : Int) ("unt\":10721007,\"message\":\"\",\"ti" : String).toList = (-2109407208 : Int) := rfl
  have e3 : List.foldl (fun h c => hashStep h c.toNat) (-2109407208 : Int) ("mestamp\":\"2024-01-01T00:00:01." : String).toList = (-642963632 : Int) := rfl
  have e4 : List.foldl (fun h c => hashStep h c.toNat) (-642963632 : Int) ("000Z\",\"transactionId\":\"4c4b580" : String).toList = (68454753 : Int) := rfl
  have e5 : List.foldl (fun h c => hashStep h c.toNat) (68454753 : Int) ("0\"\x7d]2024-01-01T00:00:02.000Z0" : String).toList = (1841561787 : Int) := rfl
  rw [hsplit, List.foldl_append, e0, List.foldl_append, e1, List.foldl_append, e2, List.foldl_append, e3, List.foldl_append, e4]
  exact e5

set_option maxRecDepth 20000 in
theorem sha_block_10721007 : sha256 "14f0998a[\x7b\"fromAddress\":\"donorA\",\"toAddress\":\"charityB\",\"amount\":10721007,\"message\":\"\",\"timestamp\":\"2024-01-01T00:00:01.000Z\",\"transactionId\":\"4c4b5800\"\x7d]2024-01-01T00:00:02.000Z0" = "6dc400bb" := by
  simp only [sha256, fold_block_10721007]
  rfl

/-- The genesis block of the demonstration ledger, hash evaluated. -/
def demoGenesisLit : Block :=
  { index := 0
    timestamp := "2024-01-01T00:00:00.000Z"
    transactions := []
    previousHash := "0"
    hash := "4f0998a"
    nonce := 0 }

theorem genesisHash_eval :
    calculateHash 0 "0" [] "2024-01-01T00:00:00.000Z" 0 = "4f0998a" := by
  have hdata : toString (0 : Nat) ++ "0" ++ stringifyTransactions []
      ++ "2024-01-01T00:00:00.000Z" ++ toString (0 : Nat)
      = "00[]2024-01-01T00:00:00.000Z0" := rfl
  simp only [calculateHash]
  rw [hdata, sha_genesis]

theorem demoGenesis_eval :
    createGenesisBlock "2024-01-01T00:00:00.000Z" "2024-01-01T00:00:00.000Z"
      = demoGenesisLit := by
  simp only [createGenesisBlock, demoGenesisLit, genesisHash_eval]

theorem txid_eval :
    generateTransactionId "donorA" "charityB" 10721006 1704067201000 = "4c4b5800" := by
  have hdata : "donorA" ++ "charityB" ++ toString (10721006 : Int)
      ++ toString (1704067201000 : Nat)
      = "donorAcharityB107210061704067201000" := rfl
  simp only [generateTransactionId]
  rw [hdata, sha_txid]

/-- The demonstration donation transaction, id evaluated. -/
def demoTxLit : Transaction :=
  { fromAddress := "donorA"
    toAddress := "charityB"
    amount := 10721006
    message := ""
    timestamp := "2024-01-01T00:00:01.000Z"
    transactionId := "4c4b5800" }

theorem calcHash_amount_10721006 :
    calculateHash 1 "4f0998a"
      [{ fromAddress := "donorA", toAddress := "charityB", amount := 10721006, message := "", timestamp := "2024-01-01T00:00:01.000Z", transactionId := "4c4b5800" }]
      "2024-01-01T00:00:02.000Z" 0 = "2d9919fa" := by
  have hdata : toString (1 : Nat) ++ "4f0998a"
      ++ stringifyTransactions
        [{ fromAddress := "donorA", toAddress := "charityB", amount := 10721006, message := "", timestamp := "2024-01-01T00:00:01.000Z", transactionId := "4c4b5800" }]
      ++ "2024-01-01T00:00:02.000Z" ++ toString (0 : Nat)
      = "14f0998a[\x7b\"fromAddress\":\"donorA\",\"toAddress\":\"charityB\",\"amount\":10721006,\"message\":\"\",\"timestamp\":\"2024-01-01T00:00:01.000Z\",\"transactionId\":\"4c4b5800\"\x7d]2024-01-01T00:00:02.000Z0" := rfl
  simp only [calculateHash]
  rw [hdata, sha_block_10721006]

theorem calcHash_amount_81000710 :
    calculateHash 1 "4f0998a"
      [{ fromAddress := "donorA", toAddress := "charityB", amount := 81000710, message := "", timestamp := "2024-01-01T00:00:01.000Z", transactionId := "4c4b5800" }]
      "2024-01-01T00:00:02.000Z" 0 = "2d9919fa" := by
  have hdata : toString (1 : Nat) ++ "4f0998a"
      ++ stringifyTransactions
        [{ fromAddress := "donorA", toAddress := "charityB", amount := 81000710, message := "", timestamp := "2024-01-01T00:00:01.000Z", transactionId := "4c4b5800" }]
      ++ "2024-01-01T00:00:02.000Z" ++ toString (0 : Nat)
      = "14f0998a[\x7b\"fromAddress\":\"donorA\",\"toAddress\":\"charityB\",\"amount\":81000710,\"message\":\"\",\"timestamp\":\"2024-01-01T00:00:01.000Z\",\"transactionId\":\"4c4b5800\"\x7d]2024-01-01T00:00:02.000Z0" := rfl
  simp only [calculateHash]
  rw [hdata, sha_block_81000710]

theorem calcHash_amount_10721007 :
    calculateHash 1 "4f0998a"
      [{ fromAddress := "donorA", toAddress := "charityB", amount := 10721007, message := "", timestamp := "2024-01-01T00:00:01.000Z", transactionId := "4c4b5800" }]
      "2024-01-01T00:00:02.000Z" 0 = "6dc400bb" := by
  have hdata : toString (1 : Nat) ++ "4f0998a"
      ++ stringifyTransactions
        [{ fromAddress := "donorA", toAddress := "charityB", amount := 10721007, message := "", timestamp := "2024-01-01T00:00:01.000Z", transactionId := "4c4b5800" }]
      ++ "2024-01-01T00:00:02.000Z" ++ toString (0 : Nat)
      = "14f0998a[\x7b\"fromAddress\":\"donorA\",\"toAddress\":\"charityB\",\"amount\":10721007,\"message\":\"\",\"timestamp\":\"2024-01-01T00:00:01.000Z\",\"transactionId\":\"4c4b5800\"\x7d]2024-01-01T00:00:02.000Z0" := rfl
  simp only [calculateHash]
  rw [hdata, sha_block_10721007]

/-- The block mined from the demonstration donation, hash evaluated. -/
def demoBlockLit : Block :=
  { index := 1
    timestamp := "2024-01-01T00:00:02.000Z"
    transactions := [demoTxLit]
    previousHash := "4f0998a"
    hash := "2d9919fa"
    nonce := 0 }

/-- Mining the demonstration donation produces exactly the evaluated
genesis/donation blocks. -/
theorem demoMine_eval :
    minePendingTransactions "2024-01-01T00:00:02.000Z"
      (addDonationTransaction "donorA" "charityB" 10721006 ""
        "2024-01-01T00:00:01.000Z" 1704067201000
        (newBlockchainService "2024-01-01T00:00:00.000Z" "2024-01-01T00:00:00.000Z")).2
      = some (demoBlockLit,
          { chain := [demoGenesisLit, demoBlockLit], pendingTransactions := [] }) := by
  simp only [newBlockchainService, demoGenesis_eval, addDonationTransaction, txid_eval,
    minePendingTransactions, createNewBlock, getLatestBlock, List.getLast?_singleton,
    List.getLast_singleton, List.nil_append, List.singleton_append, Nat.zero_add,
    calcHash_amount_10721006, demoGenesisLit, demoBlockLit, demoTxLit]

/-- The tampered block: the mined demonstration block with its single
transaction's amount changed from 10721006 to 81000710 (stored `hash`
field untouched, simulating corruption of the amount alone). -/
def demoBlockTampered81 : Block :=
  { demoBlockLit with transactions := [{ demoTxLit with amount := 81000710 }] }

/-- The tampered block with amount changed to 10721007 instead. -/
def demoBlockTampered07 : Block :=
  { demoBlockLit with transactions := [{ demoTxLit with amount := 10721007 }] }

/-- Auxiliary: a chain with an invalid tail is invalid. -/
theorem isChainValid_cons_of_false (a : Block) (l : List Block)
    (h : isChainValid l = false) : isChainValid (a :: l) = false := by
  cases l with
  | nil => simp [isChainValid] at h
  | cons b t =>
      simp only [isChainValid] at h ⊢
      rw [h, Bool.and_false]

/-- C2 (amended): mutating a non-genesis block so that its recomputed
hash differs from its stored `hash` field makes `isChainValid` return
`false`; the block being non-genesis is expressed by it having a
predecessor `prev` in the chain. -/
theorem claim2_hash_mismatch_invalid (front rest : List Block) (prev cur : Block)
    (h : cur.hash ≠ calculateHash cur.index cur.previousHash cur.transactions
          cur.timestamp cur.nonce) :
    isChainValid (front ++ prev :: cur :: rest) = false := by
  induction front with
  | nil =>
      have hbeq : (cur.hash == calculateHash cur.index cur.previousHash
          cur.transactions cur.timestamp cur.nonce) = false :=
        beq_eq_false_iff_ne.mpr h
      simp only [List.nil_append, isChainValid, checkBlock, hbeq, Bool.false_and,
        Bool.and_false]
  | cons a t ih =>
      rw [List.cons_append]
      exact isChainValid_cons_of_false a _ ih

/-- C2 (counterexample): the chain mined from the single demonstration
donation of amount 10721006, with that amount tampered to the different
value 81000710 inside the already-mined block, still passes
`isChainValid` — the 32-bit rolling hash of the tampered block collides
with the stored hash. -/
theorem claim2_counterexample :
    (minePendingTransactions "2024-01-01T00:00:02.000Z"
        (addDonationTransaction "donorA" "charityB" 10721006 ""
          "2024-01-01T00:00:01.000Z" 1704067201000
          (newBlockchainService "2024-01-01T00:00:00.000Z" "2024-01-01T00:00:00.000Z")).2
      = some (demoBlockLit,
          { chain := [demoGenesisLit, demoBlockLit], pendingTransactions := [] }))
    ∧ (81000710 : Int) ≠ demoTxLit.amount
    ∧ isChainValid [demoGenesisLit, demoBlockTampered81] = true := by
  refine ⟨demoMine_eval, by decide, ?_⟩
  simp only [isChainValid, checkBlock, demoBlockTampered81, demoGenesisLit,
    demoBlockLit, demoTxLit, calcHash_amount_81000710]
  decide

/-- Witness for `claim2_hash_mismatch_invalid`: tampering the mined
demonstration block's amount to 10721007 changes the recomputed hash
("6dc400bb" instead of the stored "2d9919fa"), and the chain fails
`isChainValid`. -/
theorem claim2_hash_mismatch_invalid_witness :
    (demoBlockTampered07.hash ≠ calculateHash demoBlockTampered07.index
        demoBlockTampered07.previousHash demoBlockTampered07.transactions
        demoBlockTampered07.timestamp demoBlockTampered07.nonce)
    ∧ isChainValid ([] ++ demoGenesisLit :: demoBlockTampered07 :: []) = false := by
  have h : demoBlockTampered07.hash ≠ calculateHash demoBlockTampered07.index
      demoBlockTampered07.previousHash demoBlockTampered07.transactions
      demoBlockTampered07.timestamp demoBlockTampered07.nonce := by
    simp only [demoBlockTampered07, demoBlockLit, demoTxLit, calcHash_amount_10721007]
    decide
  exact ⟨h, claim2_hash_mismatch_invalid [] [] demoGenesisLit demoBlockTampered07 h⟩

/-! ## Operation sequences -/

/-- One external ledger operation: a donation append (with the two clock
readings it performs) or a mine (with its clock reading). -/
inductive Op where
  | add (donorId charityId : String) (amount : Int) (message : String)
      (tsNow : String) (timeMs : Nat)
  | mine (tsNow : String)

/-- Apply one operation to the service state (a failed mine — impossible
from a fresh ledger — leaves the state unchanged). -/
def applyOp (s : BlockchainService) (op : Op) : BlockchainService :=
  match op with
  | .add donorId charityId amount message tsNow timeMs =>
      (addDonationTransaction donorId charityId amount message tsNow timeMs s).2
  | .mine tsNow =>
      match minePendingTransactions tsNow s with
      | none => s
      | some (_, next) => next

/-- Run a sequence of operations from a state. -/
def run (s : BlockchainService) (ops : List Op) : BlockchainService :=
  ops.foldl applyOp s

/-- Auxiliary: appending one block to a chain whose last block is `last`
checks the existing chain and the new link. -/
theorem isChainValid_append (c : List Block) (last b : Block)
    (h : c.getLast? = some last) :
    isChainValid (c ++ [b]) = (isChainValid c && checkBlock last b) := by
  induction c with
  | nil => simp at h
  | cons a t ih =>
      cases t with
      | nil =>
          simp only [List.getLast?_singleton, Option.some.injEq] at h
          subst h
          simp [isChainValid, Bool.and_comm]
      | cons a2 t2 =>
          have h2 : (a2 :: t2).getLast? = some last := by
            simpa [List.getLast?] using h
          have hrec := ih h2
          rw [show (a2 :: t2) ++ [b] = a2 :: (t2 ++ [b]) from rfl] at hrec
          show isChainValid (a :: a2 :: (t2 ++ [b]))
              = (isChainValid (a :: a2 :: t2) && checkBlock last b)
          rw [show isChainValid (a :: a2 :: (t2 ++ [b]))
              = (checkBlock a a2 && isChainValid (a2 :: (t2 ++ [b]))) from rfl]
          rw [show isChainValid (a :: a2 :: t2)
              = (checkBlock a a2 && isChainValid (a2 :: t2)) from rfl]
          rw [hrec, Bool.and_assoc]

/-- Auxiliary: the block built by `createNewBlock` always passes
`checkBlock` against the block it links to. -/
theorem checkBlock_createNewBlock (txs : List Transaction) (ts : String)
    (s : BlockchainService) (last b : Block)
    (hlast : getLatestBlock s = some last)
    (hb : createNewBlock txs ts s = some b) :
    checkBlock last b = true := by
  unfold createNewBlock at hb
  rw [hlast] at hb
  cases hb
  simp [checkBlock]

/-- The reachability invariant: every state reached from a fresh ledger
has a nonempty chain that passes `isChainValid`. -/
def GoodState (s : BlockchainService) : Prop :=
  s.chain ≠ [] ∧ isChainValid s.chain = true

/-- Auxiliary: `applyOp` preserves the invariant. -/
theorem goodState_applyOp (s : BlockchainService) (op : Op)
    (h : GoodState s) : GoodState (applyOp s op) := by
  obtain ⟨hne, hvalid⟩ := h
  cases op with
  | add donorId charityId amount message tsNow timeMs =>
      exact ⟨hne, hvalid⟩
  | mine tsNow =>
      obtain ⟨last, hlast⟩ : ∃ last, s.chain.getLast? = some last := by
        cases hc : s.chain.getLast? with
        | none => exact absurd (List.getLast?_eq_none_iff.mp hc) hne
        | some x => exact ⟨x, rfl⟩
      simp only [applyOp, minePendingTransactions]
      cases hb : createNewBlock s.pendingTransactions tsNow s with
      | none => exact ⟨hne, hvalid⟩
      | some b =>
          refine ⟨by simp, ?_⟩
          rw [isChainValid_append s.chain last b hlast, hvalid,
            checkBlock_createNewBlock s.pendingTransactions tsNow s last b hlast hb]
          rfl

/-- Auxiliary: `run` preserves the invariant. -/
theorem goodState_run (s : BlockchainService) (ops : List Op)
    (h : GoodState s) : GoodState (run s ops) := by
  induction ops generalizing s with
  | nil => exact h
  | cons op t ih => exact ih _ (goodState_applyOp s op h)

/-- C1: starting from a freshly constructed ledger, after any sequence of
`addDonationTransaction` / `minePendingTransactions` operations (each
with arbitrary clock readings) the chain passes `isChainValid`; in
particular it holds after each mine. -/
theorem claim1_verify_after_any_ops (tsField tsHash : String) (ops : List Op) :
    isChainValid (run (newBlockchainService tsField tsHash) ops).chain = true :=
  (goodState_run _ ops ⟨by simp [newBlockchainService], by simp [newBlockchainService, isChainValid]⟩).2

/-- Auxiliary: the full effect of `minePendingTransactions` on any state
whose chain has a last block. -/
theorem mine_spec (ts : String) (s : BlockchainService) (last : Block)
    (hlast : getLatestBlock s = some last) :
    minePendingTransactions ts s = some
      ({ index := last.index + 1
         timestamp := ts
         transactions := s.pendingTransactions
         previousHash := last.hash
         hash := calculateHash (last.index + 1) last.hash s.pendingTransactions ts 0
         nonce := 0 },
       { chain := s.chain ++
           [{ index := last.index + 1
              timestamp := ts
              transactions := s.pendingTransactions
              previousHash := last.hash
              hash := calculateHash (last.index + 1) last.hash s.pendingTransactions ts 0
              nonce := 0 }]
         pendingTransactions := [] }) := by
  simp only [minePendingTransactions, createNewBlock, hlast]

/-- Auxiliary: every reachable state has a last block. -/
theorem reachable_getLatestBlock (tsField tsHash : String) (ops : List Op) :
    ∃ last, getLatestBlock (run (newBlockchainService tsField tsHash) ops) = some last := by
  obtain ⟨hne, -⟩ := goodState_run (newBlockchainService tsField tsHash) ops
    ⟨by simp [newBlockchainService], by simp [newBlockchainService, isChainValid]⟩
  cases hc : (run (newBlockchainService tsField tsHash) ops).chain.getLast? with
  | none => exact absurd (List.getLast?_eq_none_iff.mp hc) hne
  | some x => exact ⟨x, hc⟩

/-- C4: on every reachable ledger state (any operation sequence from a
fresh ledger, so also with an empty pending buffer), mining succeeds and
the returned block has `index = lastBlock.index + 1`,
`previousHash = lastBlock.hash`, carries exactly the pending buffer at
the time of the call, is appended as the new last element of the chain,
and the pending buffer is empty afterwards. -/
theorem claim4_mine_postconditions (tsField tsHash ts : String) (ops : List Op) :
    ∃ last b next,
      getLatestBlock (run (newBlockchainService tsField tsHash) ops) = some last
      ∧ minePendingTransactions ts (run (newBlockchainService tsField tsHash) ops)
          = some (b, next)
      ∧ b.index = last.index + 1
      ∧ b.previousHash = last.hash
      ∧ b.transactions
          = (run (newBlockchainService tsField tsHash) ops).pendingTransactions
      ∧ next.chain = (run (newBlockchainService tsField tsHash) ops).chain ++ [b]
      ∧ next.pendingTransactions = [] := by
  obtain ⟨last, hlast⟩ := reachable_getLatestBlock tsField tsHash ops
  exact ⟨last, _, _, hlast, mine_spec ts _ last hlast, rfl, rfl, rfl, rfl, rfl⟩

/-- C7: a freshly created ledger has exactly one block, the genesis block,
whose `previousHash` is the string "0" and whose transaction list is
empty. -/
theorem claim7_genesis_invariant (tsField tsHash : String) :
    (newBlockchainService tsField tsHash).chain.length = 1
    ∧ (newBlockchainService tsField tsHash).chain.head?
        = some (createGenesisBlock tsField tsHash)
    ∧ (createGenesisBlock tsField tsHash).previousHash = "0"
    ∧ (createGenesisBlock tsField tsHash).transactions = [] :=
  ⟨rfl, rfl, rfl, rfl⟩

/-- C3 (counterexample): with the non-positive amount -5,
`addDonationTransaction` does not fail and does not leave the pending
buffer unchanged: it appends the transaction anyway (the source performs
no amount validation at all). -/
theorem claim3_counterexample :
    (-5 : Int) ≤ 0
    ∧ (addDonationTransaction "donorA" "charityB" (-5) ""
        "2024-01-01T00:00:01.000Z" 1704067201000
        (newBlockchainService "2024-01-01T00:00:00.000Z" "2024-01-01T00:00:00.000Z")).2.pendingTransactions
      ≠ (newBlockchainService "2024-01-01T00:00:00.000Z" "2024-01-01T00:00:00.000Z").pendingTransactions := by
  refine ⟨by decide, ?_⟩
  simp [addDonationTransaction, newBlockchainService]

/-- C3 (amended): `addDonationTransaction` performs no validation at all:
for every amount — positive, zero or negative — it succeeds, appending
exactly the constructed transaction (carrying that amount) to the
pending buffer and leaving the chain unchanged. -/
theorem claim3_add_never_fails (donorId charityId : String) (amount : Int)
    (message tsNow : String) (timeMs : Nat) (s : BlockchainService) :
    (addDonationTransaction donorId charityId amount message tsNow timeMs s).2.pendingTransactions
      = s.pendingTransactions
        ++ [(addDonationTransaction donorId charityId amount message tsNow timeMs s).1]
    ∧ (addDonationTransaction donorId charityId amount message tsNow timeMs s).2.chain
        = s.chain
    ∧ (addDonationTransaction donorId charityId amount message tsNow timeMs s).1.amount
        = amount :=
  ⟨rfl, rfl, rfl⟩

/-! ## Balance query -/

/-- All transactions stored in a chain, in block order. -/
def chainTransactions (chain : List Block) : List Transaction :=
  (chain.map Block.transactions).flatten

/-- Modelled from the spec: `sum(amount where to==X) - sum(amount where
from==X)` over the full chain. -/
def specBalance (address : String) (chain : List Block) : Int :=
  (((chainTransactions chain).filter (fun t => t.toAddress == address)).map
      Transaction.amount).sum
    - (((chainTransactions chain).filter (fun t => t.fromAddress == address)).map
        Transaction.amount).sum

/-- Auxiliary: the inner transaction loop of `getBalanceOfAddress`
computes received-minus-sent over one transaction list. -/
theorem foldTx_balance (address : String) (b0 : Int) (txs : List Transaction) :
    txs.foldl
      (fun balance transaction =>
        let balance :=
          if transaction.fromAddress == address then balance - transaction.amount
          else balance
        if transaction.toAddress == address then balance + transaction.amount
        else balance)
      b0
    = b0 + ((txs.filter (fun t => t.toAddress == address)).map Transaction.amount).sum
        - ((txs.filter (fun t => t.fromAddress == address)).map Transaction.amount).sum := by
  induction txs generalizing b0 with
  | nil => simp
  | cons t ts ih =>
      simp only [List.foldl_cons, ih, List.filter_cons]
      by_cases h1 : t.fromAddress == address <;> by_cases h2 : t.toAddress == address <;>
        simp [h1, h2] <;> ring

/-- Auxiliary: the outer block loop of `getBalanceOfAddress` computes
received-minus-sent over the whole chain. -/
theorem foldBlocks_balance (address : String) (b0 : Int) (chain : List Block) :
    chain.foldl
      (fun balance block =>
        block.transactions.foldl
          (fun balance transaction =>
            let balance :=
              if transaction.fromAddress == address then balance - transaction.amount
              else balance
            if transaction.toAddress == address then balance + transaction.amount
            else balance)
          balance)
      b0
    = b0 + (((chainTransactions chain).filter (fun t => t.toAddress == address)).map
          Transaction.amount).sum
        - (((chainTransactions chain).filter (fun t => t.fromAddress == address)).map
            Transaction.amount).sum := by
  induction chain generalizing b0 with
  | nil => simp [chainTransactions]
  | cons blk rest ih =>
      rw [List.foldl_cons, ih, foldTx_balance]
      simp only [chainTransactions, List.map_cons, List.flatten_cons,
        List.filter_append, List.map_append, List.sum_append]
      ring

/-- C6: for every address and every ledger state, `getBalanceOfAddress`
equals the sum of amounts of chain transactions whose `toAddress` is the
address minus the sum of amounts of those whose `fromAddress` is the
address. -/
theorem claim6_balance_refines_spec (address : String) (s : BlockchainService) :
    getBalanceOfAddress address s = specBalance address s.chain := by
  simp only [getBalanceOfAddress, specBalance, foldBlocks_balance]
  ring

/-! ## Transaction ids -/

/-- C8 (counterexample): two distinct `addDonationTransaction` calls —
different `from`/`to` pairs whose concatenation happens to agree — made
at the same millisecond with the same amount receive the SAME
transaction id, because the id hashes only the bare concatenation
`from + to + amount + getTime()`. -/
theorem claim8_counterexample :
    ("ab", "c") ≠ ("a", "bc")
    ∧ generateTransactionId "ab" "c" 50 1704067201000
        = generateTransactionId "a" "bc" 50 1704067201000 := by
  refine ⟨by decide, ?_⟩
  rfl

/-- C8 (amended): the transaction id is a deterministic function of the
concatenation `from ++ to`, the amount, and the millisecond clock
reading alone, so two calls agreeing on those three values — even with
different `from`/`to` splits, and in particular two same-millisecond
calls with identical fields — receive identical (not distinct) ids. -/
theorem claim8_id_function_of_concat (f t f2 t2 : String) (amount : Int)
    (timeMs : Nat) (h : f ++ t = f2 ++ t2) :
    generateTransactionId f t amount timeMs
      = generateTransactionId f2 t2 amount timeMs := by
  simp only [generateTransactionId]
  rw [h]

/-- Witness for `claim8_id_function_of_concat` at the concrete splits
("ab","c") and ("a","bc"). -/
theorem claim8_id_function_of_concat_witness :
    "ab" ++ "c" = "a" ++ "bc"
    ∧ generateTransactionId "ab" "c" 50 1704067201000
        = generateTransactionId "a" "bc" 50 1704067201000 :=
  ⟨rfl, claim8_id_function_of_concat "ab" "c" "a" "bc" 50 1704067201000 rfl⟩

/-! ## Genesis is never re-hashed by the validator -/

/-- Auxiliary: `isChainValid` only reads the first block's stored `hash`
field, never its other fields. -/
theorem isChainValid_head_hash_congr (g g2 : Block) (rest : List Block)
    (h : g.hash = g2.hash) :
    isChainValid (g :: rest) = isChainValid (g2 :: rest) := by
  cases rest with
  | nil => rfl
  | cons b t => simp only [isChainValid, checkBlock, h]

/-- C10: the validator never recomputes the genesis block's own hash:
for a chain passing validation, altering the genesis block's
transactions or timestamp (any fields except the stored `hash`) keeps
`isChainValid` true, and chains of length 0 or 1 are vacuously valid. -/
theorem claim10_genesis_unchecked (g g2 : Block) (rest : List Block)
    (h : g.hash = g2.hash) (hv : isChainValid (g :: rest) = true) :
    isChainValid (g2 :: rest) = true
    ∧ isChainValid ([] : List Block) = true
    ∧ isChainValid [g2] = true := by
  refine ⟨?_, rfl, rfl⟩
  rw [← isChainValid_head_hash_congr g g2 rest h]
  exact hv

/-- The demonstration genesis block with timestamp and transactions both
altered while keeping the stored hash "4f0998a". -/
def demoGenesisAltered : Block :=
  { demoGenesisLit with
      timestamp := "1999-12-31T23:59:59.000Z"
      transactions := [demoTxLit] }

/-- Witness for `claim10_genesis_unchecked`: the mined demonstration
chain, with the genesis block's timestamp and transactions both altered
while its stored hash "4f0998a" is kept, still validates. -/
theorem claim10_genesis_unchecked_witness :
    demoGenesisLit.hash = demoGenesisAltered.hash
    ∧ isChainValid [demoGenesisLit, demoBlockLit] = true
    ∧ (isChainValid [demoGenesisAltered, demoBlockLit] = true
        ∧ isChainValid ([] : List Block) = true
        ∧ isChainValid [demoGenesisAltered] = true) := by
  have hv : isChainValid [demoGenesisLit, demoBlockLit] = true := by
    simp only [isChainValid, checkBlock, demoGenesisLit, demoBlockLit, demoTxLit,
      calcHash_amount_10721006]
    decide
  exact ⟨rfl, hv,
    claim10_genesis_unchecked demoGenesisLit demoGenesisAltered [demoBlockLit] rfl hv⟩
/-! ## The donation-recording route (part_000, POST /) -/

/-- JavaScript property access on the transaction object built by
`addDonationTransaction`: the object literal has exactly the keys
`fromAddress`, `toAddress`, `amount`, `message`, `timestamp`,
`transactionId`; reading any other key — in particular `hash`, which the
route reads — yields `undefined` (`none`).  (`amount` is numeric, not a
string, and is not read by the route, so only the string-valued keys are
modelled.) -/
def txStringField (t : Transaction) (key : String) : Option String :=
  if key == "fromAddress" then some t.fromAddress
  else if key == "toAddress" then some t.toAddress
  else if key == "message" then some t.message
  else if key == "timestamp" then some t.timestamp
  else if key == "transactionId" then some t.transactionId
  else none

/-- The Donation document as constructed by the POST route: its
`blockchainTxHash` field is whatever `blockchainTx.hash` evaluated to,
hence an `Option String`. -/
structure DonationRecord where
  donor : String
  charity : String
  amount : Int
  message : String
  transactionId : String
  blockchainTxHash : Option String
deriving DecidableEq, Repr

/-- Mongoose validation of `donation.save()` per `DonationSchema`
(part_002): `blockchainTxHash` is `required: true`, so validation fails
when the field is `undefined`; the other required fields are always
present in the route's construction. -/
def donationSaveOk (d : DonationRecord) : Bool :=
  d.blockchainTxHash.isSome

/-- The response of the POST donations route: 201 with the donation and
block info, or the catch-all 500. -/
inductive RouteResult where
  | created (transactionId : String) (blockchainTxHash : Option String)
      (blockIndex : Nat) (blockHash : String)
  | serverError
deriving DecidableEq, Repr

/-- The POST /api/donations handler (part_000 lines 13-74) after the
donor/charity role checks have passed: it calls
`addDonationTransaction`, builds the Donation document with
`blockchainTxHash: blockchainTx.hash`, awaits `donation.save()` (whose
validation failure throws into the catch-all, answering 500 with the
mine never run), then mines and answers 201. -/
def routePostDonation (donorId charityId : String) (amount : Int)
    (message : String) (tsAdd : String) (timeMs : Nat) (tsMine : String)
    (s : BlockchainService) : RouteResult × BlockchainService :=
  let addRes := addDonationTransaction donorId charityId amount message tsAdd timeMs s
  let blockchainTx := addRes.1
  let s1 := addRes.2
  let donation : DonationRecord :=
    { donor := donorId
      charity := charityId
      amount := amount
      message := message
      transactionId := blockchainTx.transactionId
      blockchainTxHash := txStringField blockchainTx "hash" }
  if donationSaveOk donation then
    match minePendingTransactions tsMine s1 with
    | none => (RouteResult.serverError, s1)
    | some (block, s2) =>
        (RouteResult.created donation.transactionId donation.blockchainTxHash
          block.index block.hash, s2)
  else (RouteResult.serverError, s1)

/-- C5: the route reads `blockchainTx.hash`, but the transaction object
carries no `hash` field, so the required `blockchainTxHash` of the
Donation document is `undefined`: `donation.save()` always fails
validation and every donation request is answered 500 — no block is
mined, nothing is returned to the caller, and the transaction is left
stuck in the pending buffer instead of being sealed into its own
block. -/
theorem claim5_route_save_always_fails (donorId charityId : String)
    (amount : Int) (message tsAdd : String) (timeMs : Nat) (tsMine : String)
    (s : BlockchainService) :
    txStringField
        (addDonationTransaction donorId charityId amount message tsAdd timeMs s).1
        "hash" = none
    ∧ (routePostDonation donorId charityId amount message tsAdd timeMs tsMine s).1
        = RouteResult.serverError
    ∧ (routePostDonation donorId charityId amount message tsAdd timeMs tsMine s).2.chain
        = s.chain
    ∧ (routePostDonation donorId charityId amount message tsAdd timeMs tsMine s).2.pendingTransactions
        = s.pendingTransactions
          ++ [(addDonationTransaction donorId charityId amount message tsAdd timeMs s).1] :=
  ⟨rfl, rfl, rfl, rfl⟩

/-! ## Reference semantics of getBlockchain -/

/-- A tiny heap of JavaScript arrays, enough to distinguish returning an
array reference from returning a copy: block arrays and transaction
arrays addressed by index. -/
structure Heap where
  blockArrays : List (List Block)
  txArrays : List (List Transaction)
deriving DecidableEq, Repr

/-- The service as it lives on the heap: it holds references (heap
indices) to its `chain` array and its `pendingTransactions` array. -/
structure ServiceRef where
  heap : Heap
  chainRef : Nat
  pendingRef : Nat
deriving DecidableEq, Repr

/-- Dereference a block-array reference. -/
def Heap.blocksAt (h : Heap) (r : Nat) : List Block :=
  (h.blockArrays[r]?).getD []

/-- The chain the service itself observes through its own reference. -/
def ServiceRef.serviceChain (s : ServiceRef) : List Block :=
  s.heap.blocksAt s.chainRef

/-- Source `getBlockchain` (part_003 lines 187-192): the returned object
is `{ chain: this.chain, pendingTransactions: this.pendingTransactions }`
— the property reads hand out the service's own array references; no
copying construct appears. -/
def getBlockchainRefs (s : ServiceRef) : Nat × Nat :=
  (s.chainRef, s.pendingRef)

/-- A caller-side mutation through a block-array reference:
`arr.push(b)` on the array behind reference `r`. -/
def pushBlockThroughRef (s : ServiceRef) (r : Nat) (b : Block) : ServiceRef :=
  { s with
      heap :=
        { s.heap with
            blockArrays := s.heap.blockArrays.set r (s.heap.blocksAt r ++ [b]) } }

/-- A concrete heap-resident service: the freshly mined demonstration
ledger. -/
def demoServiceRef : ServiceRef :=
  { heap := { blockArrays := [[demoGenesisLit, demoBlockLit]], txArrays := [[]] }
    chainRef := 0
    pendingRef := 0 }

/-- C9 (counterexample): pushing a block through the `chain` value
returned by `getBlockchain` changes the chain the service itself
observes — the returned value aliases the ledger state instead of being
a snapshot. -/
theorem claim9_counterexample :
    (pushBlockThroughRef demoServiceRef (getBlockchainRefs demoServiceRef).1
        demoBlockLit).serviceChain
      ≠ demoServiceRef.serviceChain := by
  simp [pushBlockThroughRef, getBlockchainRefs, ServiceRef.serviceChain,
    Heap.blocksAt, demoServiceRef]

/-- C9 (amended): `getBlockchain` returns the live array references, not
snapshots: for every heap-resident service whose chain reference is
valid, a caller `push` through the returned `chain` value appends to the
ledger's own chain. -/
theorem claim9_getBlockchain_aliases (s : ServiceRef) (b : Block)
    (hr : s.chainRef < s.heap.blockArrays.length) :
    (pushBlockThroughRef s (getBlockchainRefs s).1 b).serviceChain
      = s.serviceChain ++ [b] := by
  simp [pushBlockThroughRef, getBlockchainRefs, ServiceRef.serviceChain,
    Heap.blocksAt, List.getElem?_set_self hr]

/-- Witness for `claim9_getBlockchain_aliases` on the concrete
demonstration service. -/
theorem claim9_getBlockchain_aliases_witness :
    demoServiceRef.chainRef < demoServiceRef.heap.blockArrays.length
    ∧ (pushBlockThroughRef demoServiceRef
          (getBlockchainRefs demoServiceRef).1 demoBlockLit).serviceChain
        = demoServiceRef.serviceChain ++ [demoBlockLit] :=
  ⟨by decide, claim9_getBlockchain_aliases demoServiceRef demoBlockLit (by decide)⟩

end Charity
